import Mathlib

/-!
Verification of the execution-unit placement resolver of the jina repository
(`src/jina/peapods/__init__.py`): the `Pea` factory (unit resolver), the
`Pod` factory (group resolver), and the `allow_remote` policy gate inlined
in both.  The Python code is shallowly embedded: `argparse.Namespace`
arguments become the `UnitSpec` structure, the dict-or-namespace argument of
`Pod` becomes `PodArgs`, logger warnings become returned lists of message
strings, and the `AttributeError` raised when `args.host` is evaluated on a
dict becomes an `Except` error value.
-/

namespace Peapods

/-- Modelled from the spec: the process-wide local-host sentinel
`__default_host__` is imported from the top-level `jina` package, which is
not part of the examined sources; the spec describes it only as "a
local-host sentinel value shared process-wide".  Its concrete value is the
conventional all-interfaces address; all resolver decisions compare hosts
against it by equality only. -/
def defaultHost : String := "0.0.0.0"

/-- An `argparse.Namespace` as the resolver sees it: a `host` field, an
`image` field (`None` or a string; empty strings are falsy in Python), and
all other parsed CLI fields, which the resolver never reads or writes,
kept as an uninterpreted association list. -/
structure UnitSpec where
  host : String
  image : Option String
  extra : List (String × String)
deriving DecidableEq, Repr

/-- Python truthiness of `args.image`: `None` and the empty string are
falsy, any other string is truthy. -/
def truthyImage : Option String → Bool
  | none => false
  | some s => !(s == "")

/-- The three classes a `Pea` call can instantiate, each carrying the
(gated) namespace it was constructed from. -/
inductive PeaHandle where
  | basePea (args : UnitSpec)
  | containerPea (args : UnitSpec)
  | remotePea (args : UnitSpec)
deriving DecidableEq, Repr

/-- The `allow_remote` gate at the top of `Pea`: when `allow_remote` is
false and the host is non-local, the host is reset to `__default_host__`
and one warning is logged; the warning's text interpolates
`__default_host__` (the new value), exactly as the f-string in the source
does. -/
def peaGate (args : UnitSpec) (allow_remote : Bool) : UnitSpec × List String :=
  if allow_remote = false ∧ args.host ≠ defaultHost then
    ({ args with host := defaultHost },
     ["setting host to " ++ defaultHost ++ " as allow_remote set to False"])
  else
    (args, [])

/-- The `Pea` factory: gate, then remote / container / local classification
in that order.  Returns the constructed handle together with the warnings
logged along the way. -/
def Pea (args : UnitSpec) (allow_remote : Bool) : PeaHandle × List String :=
  let g := peaGate args allow_remote
  if g.1.host ≠ defaultHost then (.remotePea g.1, g.2)
  else if truthyImage g.1.image then (.containerPea g.1, g.2)
  else (.basePea g.1, g.2)

/-- A value of the dict argument of `Pod`: each role key maps to either a
single namespace or a list of namespaces (`if not isinstance(k, list):
k = [k]` in the source). -/
inductive RoleVal where
  | one (s : UnitSpec)
  | many (ss : List UnitSpec)
deriving DecidableEq, Repr

/-- The members the source's inner loop visits for one dict value.  A falsy
value (`if k:` — an empty list) is skipped, which visits no member, the
same as flattening it to the empty list. -/
def flattenVal : RoleVal → List UnitSpec
  | .one s => [s]
  | .many ss => ss

/-- The `allow_remote` gate as inlined per member in the dict branch of
`Pod`; same rewrite as `peaGate` but with `Pod`'s own warning text. -/
def podGateUnit (kk : UnitSpec) (allow_remote : Bool) : UnitSpec × List String :=
  if allow_remote = false ∧ kk.host ≠ defaultHost then
    ({ kk with host := defaultHost },
     ["host is reset to " ++ defaultHost ++ " as allow_remote=False"])
  else
    (kk, [])

/-- In-place gating of one dict value: every visited member is gated, the
structure of the value is preserved (the source mutates each namespace in
place, so the dict keeps its shape). -/
def gateVal (ar : Bool) : RoleVal → RoleVal × List String
  | .one s => ((RoleVal.one (podGateUnit s ar).1), (podGateUnit s ar).2)
  | .many ss => ((RoleVal.many (ss.map (fun s => (podGateUnit s ar).1))),
                 (ss.map (fun s => (podGateUnit s ar).2)).flatten)

/-- The argument of `Pod`: either a plain namespace or a dict from role
name to value. -/
inductive PodArgs where
  | single (s : UnitSpec)
  | mapping (roles : List (String × RoleVal))
deriving DecidableEq, Repr

/-- The errors a `Pod` call can raise.  `attributeError` is the Python
`AttributeError` raised when an attribute (here always `host`) is read on
a dict; `nameError` is the Python `NameError` raised when an unbound name
(here `RemotePod`, which the module never imports) is evaluated;
`configError` is the Configuration Error the spec's §7 describes, which
the source never raises. -/
inductive PodError where
  | attributeError (attr : String)
  | nameError (n : String)
  | configError (msg : String)
deriving DecidableEq, Repr

/-- The classes `Pod` names.  The two mutable-pod classes receive the
whole (gated) dict; `basePod` receives the namespace.  `remotePod` is the
`RemotePod` the source's docstring and line 75 name; the module imports
only `RemotePea` and `RemoteMutablePod`, so the name is unbound and this
handle can never actually be constructed. -/
inductive PodHandle where
  | basePod (args : UnitSpec)
  | remotePod (args : UnitSpec)
  | mutablePod (roles : List (String × RoleVal))
  | remoteMutablePod (roles : List (String × RoleVal))
deriving DecidableEq, Repr

/-- The dict after the gating loop of `Pod` ran over it. -/
def gatedRoles (roles : List (String × RoleVal)) (ar : Bool) :
    List (String × RoleVal) :=
  roles.map (fun r => (r.1, (gateVal ar r.2).1))

/-- The warnings the gating loop of `Pod` logs, in visit order. -/
def gateWarnings (roles : List (String × RoleVal)) (ar : Bool) : List String :=
  (roles.map (fun r => (gateVal ar r.2).2)).flatten

/-- The `hosts` values `Pod` accumulates: the post-gate host of every
visited member, in visit order (the source stores them in a set; only
distinctness and membership are consumed, via `dedup` below). -/
def hostList (roles : List (String × RoleVal)) (ar : Bool) : List String :=
  ((gatedRoles roles ar).map (fun r => flattenVal r.2)).flatten.map (fun s => s.host)

/-- The flattened member list of a dict argument: every namespace the
gating loop of `Pod` visits, pre-gate, in visit order. -/
def members (roles : List (String × RoleVal)) : List UnitSpec :=
  (roles.map (fun r => flattenVal r.2)).flatten

/-- The `Pod` factory.  Dict arguments: gate every member, collect the host
set; one host containing the local sentinel gives `MutablePod`, one
non-local host gives `RemoteMutablePod`; any other cardinality falls
through to `args.host`, which raises `AttributeError` on a dict.
Namespace arguments: gate, then a remote / base branch (with no container
case, unlike `Pea`); the remote branch evaluates the unbound name
`RemotePod` (line 11 imports only `RemotePea` and `RemoteMutablePod`), so
it raises `NameError` instead of returning a handle. -/
def Pod (args : PodArgs) (allow_remote : Bool) :
    Except PodError PodHandle × List String :=
  match args with
  | .mapping roles =>
      let hosts := (hostList roles allow_remote).dedup
      let warns := gateWarnings roles allow_remote
      if hosts.length = 1 then
        if defaultHost ∈ hosts then
          (.ok (.mutablePod (gatedRoles roles allow_remote)), warns)
        else
          (.ok (.remoteMutablePod (gatedRoles roles allow_remote)), warns)
      else
        (.error (.attributeError ("host")), warns)
  | .single s =>
      let g := podGateUnit s allow_remote
      if g.1.host ≠ defaultHost then (.error (.nameError ("RemotePod")), g.2)
      else (.ok (.basePod g.1), g.2)

/-- The handle kinds the spec names, used to compare the classification
made by the two factories. -/
inductive HandleKind where
  | localWorker
  | containerWorker
  | remoteWorker
  | localAggregate
  | remoteAggregate
deriving DecidableEq, Repr

/-- Kind of a `Pea` handle. -/
def peaKind : PeaHandle → HandleKind
  | .basePea _ => .localWorker
  | .containerPea _ => .containerWorker
  | .remotePea _ => .remoteWorker

/-- Kind of a `Pod` handle, under the spec's correspondence: `BasePod` is
the plain local kind, `RemotePod` the remote kind, `MutablePod` the local
aggregate, `RemoteMutablePod` the remote-coordinated aggregate. -/
def podKind : PodHandle → HandleKind
  | .basePod _ => .localWorker
  | .remotePod _ => .remoteWorker
  | .mutablePod _ => .localAggregate
  | .remoteMutablePod _ => .remoteAggregate

/-- Whether the first character list occurs at the start of the second. -/
def startsWithChars : List Char → List Char → Bool
  | [], _ => true
  | _ :: _, [] => false
  | a :: as, b :: bs => a == b && startsWithChars as bs

/-- Whether the first character list occurs contiguously somewhere in the
second. -/
def containsChars (needle : List Char) : List Char → Bool
  | [] => startsWithChars needle []
  | b :: bs => startsWithChars needle (b :: bs) || containsChars needle bs

/-- A diagnostic message carries a host value when the host's text occurs
in the message. -/
def carriesHost (msg h : String) : Bool :=
  containsChars h.toList msg.toList

/-- The two gates rewrite the specification identically; they differ only
in the warning text. -/
theorem gate_specs_eq (s : UnitSpec) (ar : Bool) :
    (podGateUnit s ar).1 = (peaGate s ar).1 := by
  by_cases hc : ar = false ∧ s.host ≠ defaultHost <;>
    simp [podGateUnit, peaGate, hc]

/-- With `allow_remote` true the per-member gate of `Pod` is the
identity and logs nothing. -/
theorem podGateUnit_true (s : UnitSpec) : podGateUnit s true = (s, []) := by
  simp [podGateUnit]

/-- With `allow_remote` true the gating loop leaves every dict value
unchanged and logs nothing. -/
theorem gateVal_true (v : RoleVal) : gateVal true v = (v, []) := by
  cases v <;> simp [gateVal, podGateUnit_true]

/-- Gating a dict value and then flattening it is flattening it and then
gating each member. -/
theorem flattenVal_gateVal (ar : Bool) (v : RoleVal) :
    flattenVal (gateVal ar v).1
      = (flattenVal v).map (fun s => (podGateUnit s ar).1) := by
  cases v <;> simp [flattenVal, gateVal]

/-- The host values `Pod` collects are the post-gate hosts of the
flattened member list. -/
theorem hostList_members (roles : List (String × RoleVal)) (ar : Bool) :
    hostList roles ar
      = (members roles).map (fun s => ((podGateUnit s ar).1).host) := by
  simp only [hostList, members, gatedRoles, List.map_map, List.map_flatten]
  congr 1
  apply List.map_congr_left
  intro r _
  simp [Function.comp, flattenVal_gateVal, List.map_map]

/-- `Pea` logs exactly the warnings its gate produced, in every
classification branch. -/
theorem Pea_warnings (s : UnitSpec) (ar : Bool) :
    (Pea s ar).2 = (peaGate s ar).2 := by
  simp only [Pea]
  split
  · rfl
  · split <;> rfl

/-- Deduplicating a non-empty constant list yields the singleton. -/
theorem dedup_const (a : String) (l : List String) (hne : l ≠ [])
    (hall : ∀ x ∈ l, x = a) : l.dedup = [a] := by
  induction l with
  | nil => exact absurd rfl hne
  | cons x xs ih =>
    have hx : x = a := hall x (List.mem_cons_self x xs)
    cases xs with
    | nil => simp [hx]
    | cons y ys =>
      have hy : y = a := hall y (by simp)
      have hmem : x ∈ y :: ys := by simp [hx, hy]
      rw [List.dedup_cons_of_mem hmem]
      exact ih (by simp) (fun z hz => hall z (List.mem_cons_of_mem x hz))

/-- C5: for every unit specification whose host after the policy gate is
not the local sentinel, `Pea` returns a `RemotePea` carrying exactly the
gated specification (hence bound to that exact host), regardless of the
`image` field — remoteness is decided before containerization. -/
theorem C5_remote_host_gives_remote_pea (s : UnitSpec) (ar : Bool)
    (h : (peaGate s ar).1.host ≠ defaultHost) :
    (Pea s ar).1 = .remotePea (peaGate s ar).1 := by
  simp [Pea, h]

/-- C5 witness: a concrete remote spec with a container image still
resolves to the remote handle. -/
theorem C5_witness :
    (peaGate ⟨"10.0.0.2", some ("img:v1"), []⟩ true).1.host ≠ defaultHost ∧
    (Pea ⟨"10.0.0.2", some ("img:v1"), []⟩ true).1
      = .remotePea (peaGate ⟨"10.0.0.2", some ("img:v1"), []⟩ true).1 :=
  ⟨by decide, C5_remote_host_gives_remote_pea _ _ (by decide)⟩

/-- C6: for every unit specification whose host after the policy gate is
the local sentinel, `Pea` returns a `ContainerPea` when the image is set
and non-empty, and a `BasePea` when the image is absent. -/
theorem C6_local_host_container_or_base (s : UnitSpec) (ar : Bool)
    (h : (peaGate s ar).1.host = defaultHost) :
    (∀ img : String, (peaGate s ar).1.image = some img → img ≠ "" →
        (Pea s ar).1 = .containerPea (peaGate s ar).1) ∧
      ((peaGate s ar).1.image = none →
        (Pea s ar).1 = .basePea (peaGate s ar).1) := by
  constructor
  · intro img himg hne
    have ht : truthyImage (peaGate s ar).1.image = true := by
      simp [truthyImage, himg, hne]
    simp [Pea, h, ht]
  · intro hnone
    have ht : truthyImage (peaGate s ar).1.image = false := by
      simp [truthyImage, hnone]
    simp [Pea, h, ht]

/-- C6 witness: a concrete local spec with an image gives the container
handle and a concrete local spec without one gives the base handle. -/
theorem C6_witness :
    ((peaGate ⟨"0.0.0.0", some ("img:v1"), []⟩ true).1.host = defaultHost ∧
      (Pea ⟨"0.0.0.0", some ("img:v1"), []⟩ true).1
        = .containerPea (peaGate ⟨"0.0.0.0", some ("img:v1"), []⟩ true).1) ∧
    ((peaGate ⟨"0.0.0.0", none, []⟩ true).1.host = defaultHost ∧
      (Pea ⟨"0.0.0.0", none, []⟩ true).1
        = .basePea (peaGate ⟨"0.0.0.0", none, []⟩ true).1) :=
  ⟨⟨by decide,
    (C6_local_host_container_or_base _ _ (by decide)).1 ("img:v1")
      (by decide) (by decide)⟩,
   ⟨by decide, (C6_local_host_container_or_base _ _ (by decide)).2 (by decide)⟩⟩

/-- C7: for every unit specification, `Pea` with `allow_remote = false`
returns the same handle kind as `Pea` with `allow_remote = true` on the
same specification with its host replaced by the local sentinel: the gate
is behaviorally equivalent to pre-localizing the host. -/
theorem C7_gate_equals_prelocalization (s : UnitSpec) :
    peaKind (Pea s false).1
      = peaKind (Pea { s with host := defaultHost } true).1 := by
  obtain ⟨h, i, e⟩ := s
  have hg : (peaGate { host := h, image := i, extra := e } false).1
      = { host := defaultHost, image := i, extra := e } := by
    by_cases hh : h = defaultHost
    · subst hh; simp [peaGate]
    · simp [peaGate, hh]
  have hg2 : (peaGate { host := defaultHost, image := i, extra := e } true).1
      = { host := defaultHost, image := i, extra := e } := by
    simp [peaGate]
  simp [Pea, hg, hg2]
  by_cases hi : truthyImage i = true <;> simp [hi]

/-- C9: the policy gate is idempotent, in both its `Pea` and its `Pod`
inlined form, and re-gating before resolving does not change the `Pea`
classification. -/
theorem C9_gate_idempotent (s : UnitSpec) (ar : Bool) :
    (peaGate (peaGate s ar).1 ar).1 = (peaGate s ar).1 ∧
    (podGateUnit (podGateUnit s ar).1 ar).1 = (podGateUnit s ar).1 ∧
    (Pea (peaGate s ar).1 ar).1 = (Pea s ar).1 := by
  by_cases hc : ar = false ∧ s.host ≠ defaultHost
  · obtain ⟨ha, hh⟩ := hc
    subst ha
    refine ⟨by simp [peaGate, hh], by simp [podGateUnit, hh], ?_⟩
    simp [Pea, peaGate, hh]
    by_cases hi : truthyImage s.image = true <;> simp [hi]
  · have h1 : peaGate s ar = (s, []) := by simp [peaGate, hc]
    have h2 : podGateUnit s ar = (s, []) := by simp [podGateUnit, hc]
    simp [h1, h2]

/-- C10: the policy gate (in both resolvers) changes at most the host
field: the image field and the pass-through fields are always preserved,
and the host itself is preserved when it is already local or remote
execution is allowed. -/
theorem C10_gate_frame (s : UnitSpec) (ar : Bool) :
    (peaGate s ar).1.image = s.image ∧ (peaGate s ar).1.extra = s.extra ∧
    (podGateUnit s ar).1.image = s.image ∧
    (podGateUnit s ar).1.extra = s.extra ∧
    ((s.host = defaultHost ∨ ar = true) →
      (peaGate s ar).1.host = s.host ∧ (podGateUnit s ar).1.host = s.host) := by
  cases ar with
  | false =>
    by_cases hh : s.host = defaultHost
    · have h1 : peaGate s false = (s, []) := by simp [peaGate, hh]
      have h2 : podGateUnit s false = (s, []) := by simp [podGateUnit, hh]
      simp [h1, h2]
    · refine ⟨by simp [peaGate, hh], by simp [peaGate, hh],
        by simp [podGateUnit, hh], by simp [podGateUnit, hh], ?_⟩
      intro hor
      rcases hor with h1 | h1
      · exact absurd h1 hh
      · exact Bool.noConfusion h1
  | true =>
    have h1 : peaGate s true = (s, []) := by simp [peaGate]
    have h2 : podGateUnit s true = (s, []) := by simp [podGateUnit]
    simp [h1, h2]

/-- C10 witness: a concrete remote spec with image and a pass-through
field, gated with remote execution allowed, keeps all its fields. -/
theorem C10_witness :
    (peaGate ⟨"1.2.3.4", some ("img:v1"), [("k", "v")]⟩ true).1.image
        = some ("img:v1") ∧
    ((peaGate ⟨"1.2.3.4", some ("img:v1"), [("k", "v")]⟩ true).1.host
        = "1.2.3.4" ∧
      (podGateUnit ⟨"1.2.3.4", some ("img:v1"), [("k", "v")]⟩ true).1.host
        = "1.2.3.4") :=
  ⟨(C10_gate_frame ⟨"1.2.3.4", some ("img:v1"), [("k", "v")]⟩ true).1,
   (C10_gate_frame ⟨"1.2.3.4", some ("img:v1"), [("k", "v")]⟩ true).2.2.2.2
     (Or.inr rfl)⟩

/-- C1 counterexample: a group spanning two distinct hosts does not yield
a `RemoteMutablePod`; `Pod` falls through its dict branch and fails with
an `AttributeError` reading `host` on the dict. -/
theorem C1_counterexample :
    Pod (.mapping [("a", .one ⟨"10.0.0.2", none, []⟩),
                   ("b", .one ⟨"10.0.0.3", none, []⟩)]) true
      = (.error (.attributeError ("host")), []) := rfl

/-- C1 (amended): for every group specification whose gated members span
two or more distinct hosts, `Pod` does not return a handle of any kind:
the dict branch has no case for more than one distinct host and control
falls through to reading `host` on the dict, raising `AttributeError`. -/
theorem C1_amended_mixed_hosts_attribute_error
    (roles : List (String × RoleVal)) (ar : Bool)
    (h : 2 ≤ (hostList roles ar).dedup.length) :
    (Pod (.mapping roles) ar).1 = .error (.attributeError ("host")) := by
  have hne : ¬ (hostList roles ar).dedup.length = 1 := by omega
  simp [Pod, hne]

/-- C1 (amended) witness: the two-host group instantiates the amended
theorem. -/
theorem C1_amended_witness :
    2 ≤ (hostList [("a", RoleVal.one ⟨"10.0.0.2", none, []⟩),
                   ("b", RoleVal.one ⟨"10.0.0.3", none, []⟩)]
            true).dedup.length ∧
    (Pod (.mapping [("a", RoleVal.one ⟨"10.0.0.2", none, []⟩),
                    ("b", RoleVal.one ⟨"10.0.0.3", none, []⟩)]) true).1
      = .error (.attributeError ("host")) :=
  ⟨by decide, C1_amended_mixed_hosts_attribute_error _ _ (by decide)⟩

/-- C2 counterexample: on a single (non-mapping) specification with the
local host and a container image, `Pod` returns the plain `BasePod` (the
local kind) while `Pea` returns a `ContainerPea` (the containerized
kind), so the fallback does not behave as the unit resolver. -/
theorem C2_counterexample :
    (Pod (.single ⟨"0.0.0.0", some ("img:v1"), []⟩) true).1
      = .ok (.basePod ⟨"0.0.0.0", some ("img:v1"), []⟩) ∧
    podKind (.basePod ⟨"0.0.0.0", some ("img:v1"), []⟩)
      = .localWorker ∧
    peaKind (Pea ⟨"0.0.0.0", some ("img:v1"), []⟩ true).1
      = .containerWorker :=
  ⟨rfl, rfl, rfl⟩

/-- C2 (amended): `Pod` on a single specification applies the same gate
but does not delegate to `Pea`: when the gated host is the local
sentinel it returns the plain `BasePod` even when a container image is
set (the fallback has no containerized case), and when the gated host is
non-local it returns no handle at all — it fails with a `NameError`
evaluating `RemotePod`, which the module never imports. -/
theorem C2_amended_single_base_or_name_error (s : UnitSpec) (ar : Bool) :
    ((podGateUnit s ar).1.host = defaultHost →
      (Pod (.single s) ar).1 = .ok (.basePod (podGateUnit s ar).1)) ∧
    ((podGateUnit s ar).1.host ≠ defaultHost →
      (Pod (.single s) ar).1 = .error (.nameError ("RemotePod"))) := by
  constructor
  · intro h
    simp [Pod, h]
  · intro h
    simp [Pod, h]

/-- C2 (amended) witness: a single local specification with a container
image still gets the plain base handle, and a single remote specification
gets the `NameError`, instantiating both parts of the amended theorem. -/
theorem C2_amended_witness :
    ((podGateUnit ⟨"0.0.0.0", some ("img:v1"), []⟩ true).1.host
        = defaultHost ∧
      (Pod (.single ⟨"0.0.0.0", some ("img:v1"), []⟩) true).1
        = .ok (.basePod
            (podGateUnit ⟨"0.0.0.0", some ("img:v1"), []⟩ true).1)) ∧
    ((podGateUnit ⟨"10.0.0.2", none, []⟩ true).1.host ≠ defaultHost ∧
      (Pod (.single ⟨"10.0.0.2", none, []⟩) true).1
        = .error (.nameError ("RemotePod"))) :=
  ⟨⟨by decide,
    (C2_amended_single_base_or_name_error ⟨"0.0.0.0", some ("img:v1"), []⟩
      true).1 (by decide)⟩,
   ⟨by decide,
    (C2_amended_single_base_or_name_error ⟨"10.0.0.2", none, []⟩
      true).2 (by decide)⟩⟩

/-- C3 counterexample: at host `203.0.113.5` with `allow_remote = false`,
`Pea` rewrites the host and emits exactly one warning, but the warning's
text does not carry the original host value — it names the new default
host instead. -/
theorem C3_counterexample :
    Pea ⟨"203.0.113.5", none, []⟩ false
      = (.basePea ⟨"0.0.0.0", none, []⟩,
         ["setting host to 0.0.0.0 as allow_remote set to False"]) ∧
    carriesHost ("setting host to 0.0.0.0 as allow_remote set to False")
      ("203.0.113.5") = false :=
  ⟨rfl, rfl⟩

/-- C3 (amended): for every unit specification with a non-local host,
`Pea` with `allow_remote = false` rewrites the host to the local sentinel
and emits exactly one warning diagnostic, whose message is a fixed text
carrying the rewritten (sentinel) host, not the original host value. -/
theorem C3_amended_warning_names_new_host (s : UnitSpec)
    (h : s.host ≠ defaultHost) :
    (peaGate s false).1 = { s with host := defaultHost } ∧
    (Pea s false).2
      = ["setting host to " ++ defaultHost
          ++ " as allow_remote set to False"] ∧
    carriesHost ("setting host to " ++ defaultHost
        ++ " as allow_remote set to False") defaultHost = true := by
  refine ⟨by simp [peaGate, h], ?_, by decide⟩
  rw [Pea_warnings]
  simp [peaGate, h]

/-- C3 (amended) witness: the scenario host instantiates the amended
theorem. -/
theorem C3_amended_witness :
    ("203.0.113.5" : String) ≠ defaultHost ∧
    ((peaGate ⟨"203.0.113.5", none, []⟩ false).1
        = { host := defaultHost, image := none, extra := [] } ∧
      (Pea ⟨"203.0.113.5", none, []⟩ false).2
        = ["setting host to " ++ defaultHost
            ++ " as allow_remote set to False"] ∧
      carriesHost ("setting host to " ++ defaultHost
          ++ " as allow_remote set to False") defaultHost = true) :=
  ⟨by decide, C3_amended_warning_names_new_host ⟨"203.0.113.5", none, []⟩
    (by decide)⟩

/-- C4 counterexample: on the empty group, `Pod` does fail, but with an
`AttributeError` from reading `host` on the dict, not with a
Configuration Error about supplying a member. -/
theorem C4_counterexample :
    (Pod (.mapping []) true).1 = .error (.attributeError ("host")) ∧
    ¬ ∃ msg, (Pod (.mapping []) true).1
        = Except.error (PodError.configError msg) := by
  refine ⟨rfl, ?_⟩
  rintro ⟨msg, hmsg⟩
  rw [show (Pod (PodArgs.mapping []) true).1
        = Except.error (PodError.attributeError ("host")) from rfl] at hmsg
  exact PodError.noConfusion (Except.error.inj hmsg)

/-- C4 (amended): for every group specification with no members (empty
host set), `Pod` fails and returns no handle, but the failure is an
`AttributeError` reading `host` on the dict, not a Configuration Error
telling the caller to supply a member. -/
theorem C4_amended_empty_group_attribute_error
    (roles : List (String × RoleVal)) (ar : Bool)
    (h : members roles = []) :
    (Pod (.mapping roles) ar).1 = .error (.attributeError ("host")) := by
  have hl : hostList roles ar = [] := by rw [hostList_members, h]; rfl
  simp [Pod, hl]

/-- C4 (amended) witness: a group whose only role holds an empty replica
list instantiates the amended theorem. -/
theorem C4_amended_witness :
    members [("encoder", RoleVal.many [])] = [] ∧
    (Pod (.mapping [("encoder", RoleVal.many [])]) false).1
      = .error (.attributeError ("host")) :=
  ⟨by decide, C4_amended_empty_group_attribute_error _ _ (by decide)⟩

/-- C8: for every group specification whose flattened members are
non-empty and all carry one host value distinct from the local sentinel,
`Pod` with `allow_remote = true` returns exactly one
`RemoteMutablePod` carrying the whole (unchanged) group, with no
warnings and no per-unit resolution. -/
theorem C8_single_remote_host_one_aggregate
    (roles : List (String × RoleVal)) (h : String)
    (hne : members roles ≠ [])
    (hall : ∀ m ∈ members roles, m.host = h)
    (hnl : h ≠ defaultHost) :
    Pod (.mapping roles) true = (.ok (.remoteMutablePod roles), []) := by
  have hg : gatedRoles roles true = roles := by
    simp [gatedRoles, gateVal_true]
  have hw : gateWarnings roles true = [] := by
    simp [gateWarnings, gateVal_true]
  have hhost : hostList roles true = (members roles).map (fun m => m.host) := by
    rw [hostList_members]
    simp [podGateUnit_true]
  have hd : (hostList roles true).dedup = [h] := by
    rw [hhost]
    apply dedup_const
    · simpa using hne
    · intro x hx
      obtain ⟨m, hm, rfl⟩ := List.mem_map.mp hx
      exact hall m hm
  simp [Pod, hd, hg, hw, Ne.symm hnl]

/-- C8 witness: the spec's scenario (two encoder replicas and one indexer,
all on `10.0.0.2`) instantiates the theorem. -/
theorem C8_witness :
    members [("encoder", RoleVal.many [⟨"10.0.0.2", none, []⟩,
                ⟨"10.0.0.2", none, []⟩]),
             ("indexer", RoleVal.one ⟨"10.0.0.2", none, []⟩)] ≠ [] ∧
    (∀ m ∈ members [("encoder", RoleVal.many [⟨"10.0.0.2", none, []⟩,
                ⟨"10.0.0.2", none, []⟩]),
             ("indexer", RoleVal.one ⟨"10.0.0.2", none, []⟩)],
        m.host = "10.0.0.2") ∧
    ("10.0.0.2" : String) ≠ defaultHost ∧
    Pod (.mapping [("encoder", RoleVal.many [⟨"10.0.0.2", none, []⟩,
                ⟨"10.0.0.2", none, []⟩]),
             ("indexer", RoleVal.one ⟨"10.0.0.2", none, []⟩)]) true
      = (.ok (.remoteMutablePod
            [("encoder", RoleVal.many [⟨"10.0.0.2", none, []⟩,
                ⟨"10.0.0.2", none, []⟩]),
             ("indexer", RoleVal.one ⟨"10.0.0.2", none, []⟩)]), []) :=
  ⟨by decide, by decide, by decide,
   C8_single_remote_host_one_aggregate _ ("10.0.0.2") (by decide) (by decide)
     (by decide)⟩

end Peapods
